import Mathlib

/-!
Verification development for the pokebase cog (src/pokebase/pokebase.py).

The development shallowly embeds the parts of the cog that the claims are
about: the image pipeline of generate_image, the control flow of the
whosthatpokemon command, the height field construction of pdex and the
form assembly of trainercard. Machine floats of the source are modelled by
exact rational arithmetic (the factor 1.6 as 8/5, 3.94 as 394/100), which
agrees with the double computations on the ranges involved; Python int()
on a float quotient is truncation toward zero, Int.tdiv here.
-/

/-- RGBA pixel as Pillow presents it for an image opened in RGBA mode:
four integer channels, each in 0..255. -/
structure Pixel where
  r : Nat
  g : Nat
  b : Nat
  a : Nat
  deriving DecidableEq

/-- Raster image: dimensions plus a pixel function; only coordinates with
x < w and y < h are meaningful. -/
structure Img where
  w : Nat
  h : Nat
  pix : Nat → Nat → Pixel

/-- Fully transparent black, the tuple the hide loop of generate_image
compares against at line 812. -/
def transparentBlack : Pixel := ⟨0, 0, 0, 0⟩

/-- Value written by the hide loop at line 815. Assigning the 3-tuple
(1, 1, 1) to a pixel of an RGBA image makes Pillow default the missing
alpha to 255, so the stored pixel is opaque near-black. -/
def silhouetteColor : Pixel := ⟨1, 1, 1, 255⟩

/-- One step of the hide loop of generate_image (lines 808-815): a pixel
equal to (0, 0, 0, 0) is skipped, every other pixel is overwritten. -/
def maskPixel (p : Pixel) : Pixel :=
  if p = transparentBlack then p else silhouetteColor

/-- The whole hide loop: maskPixel applied at every coordinate of the
resized sprite. -/
def applyMask (img : Img) : Img :=
  { img with pix := fun x y => maskPixel (img.pix x y) }

/-- Linear alpha interpolation of one channel, modelling the Pillow paste
with a mask: weight a out of 255 for the sprite channel, the rest for the
base channel. For a = 0 the base channel is kept exactly, for a = 255 the
sprite channel replaces it exactly. -/
def blendChan (b s a : Nat) : Nat := (b * (255 - a) + s * a) / 255

/-- Channelwise alpha interpolation of two pixels. -/
def blendPixel (b s : Pixel) (a : Nat) : Pixel :=
  ⟨blendChan b.r s.r a, blendChan b.g s.g a, blendChan b.b s.b a, blendChan b.a s.a a⟩

/-- Model of base_image.paste(sprite, (ox, oy), mask) at line 820: inside
the pasted rectangle each base pixel is interpolated against the sprite
pixel using the alpha of the mask pixel; outside it is untouched. The
result keeps the dimensions of the base image. -/
def paste (base sprite : Img) (ox oy : Int) (mask : Img) : Img :=
  { w := base.w, h := base.h,
    pix := fun x y =>
      let sx : Int := (x : Int) - ox
      let sy : Int := (y : Int) - oy
      if 0 ≤ sx ∧ sx < (sprite.w : Int) ∧ 0 ≤ sy ∧ sy < (sprite.h : Int) then
        blendPixel (base.pix x y) (sprite.pix sx.toNat sy.toNat)
          (mask.pix sx.toNat sy.toNat).a
      else base.pix x y }

/-- Width or height after poke_image.resize at line 806:
int(poke_width * 1.6), that is 8/5 of the original truncated down. -/
def scaled16 (n : Nat) : Nat := n * 8 / 5

/-- Horizontal paste offset, line 817: int((bg_width - poke_width) / 10).
Here poke_width is the width of the ORIGINAL sprite read at line 804, not
of the resized sprite that is actually pasted. -/
def pasteOx (bgW pokeW : Nat) : Int := Int.tdiv ((bgW : Int) - (pokeW : Int)) 10

/-- Vertical paste offset, line 818: int((bg_height - poke_height) / 4). -/
def pasteOy (bgH pokeH : Nat) : Int := Int.tdiv ((bgH : Int) - (pokeH : Int)) 4

/-- Dimension contract of PIL Image.resize: the output has exactly the
requested size. The resampling kernel itself is a parameter of the model. -/
def resampleDims (resample : Img → Nat → Nat → Img) : Prop :=
  ∀ img w h, (resample img w h).w = w ∧ (resample img w h).h = h

/-- Nearest-neighbour resampler, a concrete executable instance of the
resize contract used to evaluate the model on concrete inputs. -/
def nearestResample (img : Img) (w h : Nat) : Img :=
  ⟨w, h, fun x y => img.pix (x * img.w / w) (y * img.h / h)⟩

/-- Pixel pipeline of generate_image (lines 793-828) once the sprite bytes
have been fetched and decoded: resize both axes by 1.6, optionally run the
hide loop, then paste onto the template at offsets computed from the
ORIGINAL sprite size, passing the pasted sprite itself as the paste mask
(so its alpha channel drives the blend). -/
def composeImage (resample : Img → Nat → Nat → Img) (template poke : Img)
    (hide : Bool) : Img :=
  let resized := resample poke (scaled16 poke.w) (scaled16 poke.h)
  let sprite := if hide then applyMask resized else resized
  paste template sprite (pasteOx template.w poke.w) (pasteOy template.h poke.h) sprite

/-- Python exceptions that the embedded code paths can raise. -/
inductive PyErr where
  | typeError (msg : String)
  | indexError
  | attributeError (msg : String)
  | imageOpenNone
  deriving DecidableEq

/-- Model of generate_image (lines 793-828). get_pokemon_image (lines
782-791) returns None on a non-200 status or a timeout; the guard that
would return early on that None is commented out in the source (lines
799-800), so the None reaches Image.open(pbytes) at line 802, which
raises. The raised exception is the error value here; in the running bot
it escapes the command callback. -/
def generate_image (resample : Img → Nat → Nat → Img) (template : Img)
    (fetched : Option Img) (hide : Bool) : Except PyErr Img :=
  match fetched with
  | none => Except.error PyErr.imageOpenNone
  | some poke => Except.ok (composeImage resample template poke hide)

/-- One entry of the names array of a pokemon-species document: the
localized name and the language name nested under it. -/
structure NameEntry where
  name : String
  language : String
  deriving DecidableEq

/-- Model of Python str.lower as used on guesses and names (line 881 and
line 898); ASCII case folding applied to every character. -/
def pyLower (s : String) : String := String.mk (s.data.map Char.toLower)

/-- Generation labels accepted by whosthatpokemon (line 842). -/
def allowed_gens : List String :=
  ["gen1", "gen2", "gen3", "gen4", "gen5", "gen6", "gen7", "gen8"]

/-- Test at line 843: if generation and generation not in allowed_gens.
A missing argument is None and an empty string is falsy as well, so
neither reaches the rejection branch. -/
def invalidGenArg : Option String → Bool
  | none => false
  | some g => (g != "") && !(allowed_gens.contains g)

/-- Identifier selection of whosthatpokemon (lines 849-866); rand models
random.randint, which is inclusive at both ends. -/
def pickPokeId (rand : Nat → Nat → Nat) : Option String → Nat
  | some "gen1" => rand 1 151
  | some "gen2" => rand 152 251
  | some "gen3" => rand 252 386
  | some "gen4" => rand 387 493
  | some "gen5" => rand 494 649
  | some "gen6" => rand 650 721
  | some "gen7" => rand 722 809
  | some "gen8" => rand 810 898
  | _ => rand 1 898

/-- Python str(n).zfill(3). -/
def zfill3 (n : Nat) : String :=
  let s := toString n
  if s.length ≥ 3 then s else String.mk (List.replicate (3 - s.length) '0') ++ s

/-- Artwork URL built at line 797 from the zero-padded identifier. -/
def artworkUrl (pid3 : String) : String :=
  "https://assets.pokemon.com/assets/cms2/img/pokedex/full/" ++ pid3 ++ ".png"

/-- Species URL fetched by get_species_data (line 119). -/
def speciesUrl (pid : Nat) : String :=
  "https://pokeapi.co/api/v2/pokemon-species/" ++ toString pid

/-- Externally visible actions of one whosthatpokemon invocation, in
order. -/
inductive Effect where
  | triggerTyping
  | resetCooldown
  | sendText (msg : String)
  | httpGet (url : String)
  | replyPrompt
  | startWait
  | deletePrompt
  | sendEmbed (title desc : String)
  deriving DecidableEq

/-- Terminal outcome of one whosthatpokemon invocation. A crashed outcome
stands for a Python exception escaping the command callback. -/
inductive WtpOutcome where
  | invalidGen
  | crashed (err : PyErr)
  | timeout
  | correct
  | incorrect
  deriving DecidableEq

/-- Environment of one whosthatpokemon invocation: the random generator,
the bundled template, the resize kernel, the artwork fetch result by URL,
the names field of the species document (outer none = fetch failed, inner
none = field absent), the collected answer (none = wait timed out) and the
display name of the requesting user. -/
structure WtpEnv where
  rand : Nat → Nat → Nat
  template : Img
  resample : Img → Nat → Nat → Img
  artwork : String → Option Img
  species : Option (Option (List NameEntry))
  answer : Option String
  author : String

/-- Rejection message sent at lines 845-847. -/
def invalidGenMsg : String :=
  "Only " ++ String.intercalate ", " (allowed_gens.map (fun x => "`" ++ x ++ "`")) ++
    " generations are allowed."

/-- Timeout message sent at lines 892-894. -/
def timeoutMsg (author : String) : String :=
  "Time over! **" ++ author ++ "** did not guess the Pokémon within 15 seconds."

/-- Title of the incorrect-guess embed (line 902). -/
def wrongTitle : String := "Your guess is very wrong! 😔 😮‍💨"

/-- Title of the correct-guess embed (line 912). -/
def rightTitle : String := "🎉 POGGERS!! You guessed it right! 🎉"

/-- Description of both outcome embeds (lines 905 and 913), carrying the
canonical English display name. -/
def itWasDesc (englishName : String) : String := "It was ... **" ++ englishName ++ "**"

/-- Line 882: first entry of the names array whose language name is en;
indexing [0] raises IndexError when no such entry exists. -/
def englishFirst (names : List NameEntry) : Option NameEntry :=
  (names.filter (fun x => x.language == "en")).head?

/-- Boolean recognizer for network fetch effects. -/
def isHttpGet : Effect → Bool
  | Effect.httpGet _ => true
  | _ => false

/-- Boolean recognizer for outcome embeds whose description is the
verdict line built from the given English name. -/
def isVerdictEmbed (englishName : String) : Effect → Bool
  | Effect.sendEmbed _ desc => desc == itWasDesc englishName
  | _ => false

/-- Control flow of the whosthatpokemon command (lines 834-916) over an
environment supplying the nondeterministic and external pieces. The first
component lists the externally visible actions in source order; the second
is the outcome of the round. -/
def wtpRun (env : WtpEnv) (generation : Option String) : List Effect × WtpOutcome :=
  if invalidGenArg generation then
    ([Effect.resetCooldown, Effect.sendText invalidGenMsg], WtpOutcome.invalidGen)
  else
    let poke_id := pickPokeId env.rand generation
    let url := artworkUrl (zfill3 poke_id)
    let pre := [Effect.triggerTyping, Effect.httpGet url]
    match generate_image env.resample env.template (env.artwork url) true with
    | Except.error e => (pre, WtpOutcome.crashed e)
    | Except.ok _hidden =>
      let pre2 := pre ++ [Effect.replyPrompt, Effect.httpGet (speciesUrl poke_id)]
      match env.species with
      | none =>
        (pre2, WtpOutcome.crashed (PyErr.attributeError "NoneType object has no attribute get"))
      | some none =>
        (pre2, WtpOutcome.crashed (PyErr.typeError "NoneType object is not iterable"))
      | some (some names_data) =>
        let eligible_names := names_data.map (fun x => pyLower x.name)
        match englishFirst names_data with
        | none => (pre2, WtpOutcome.crashed PyErr.indexError)
        | some entry =>
          match env.answer with
          | none =>
            (pre2 ++ [Effect.startWait, Effect.deletePrompt,
                      Effect.sendText (timeoutMsg env.author)],
             WtpOutcome.timeout)
          | some content =>
            let pre3 := pre2 ++ [Effect.startWait, Effect.httpGet url]
            match generate_image env.resample env.template (env.artwork url) false with
            | Except.error e => (pre3, WtpOutcome.crashed e)
            | Except.ok _revealed =>
              if !(eligible_names.contains (pyLower content)) then
                (pre3 ++ [Effect.deletePrompt,
                          Effect.sendEmbed wrongTitle (itWasDesc entry.name)],
                 WtpOutcome.incorrect)
              else
                (pre3 ++ [Effect.deletePrompt,
                          Effect.sendEmbed rightTitle (itWasDesc entry.name)],
                 WtpOutcome.correct)

/-- Height field of pdex (lines 165-169). The feet and inches parts read
the height with default 0, but the metres part divides the raw get result
with NO default by 10: an absent height field makes that expression
None / 10, which raises a TypeError while the embed field is being built. -/
def pdexHeightText (height : Option Nat) : Except PyErr String :=
  match height with
  | none => Except.error (PyErr.typeError "unsupported operand types for /: NoneType and int")
  | some h =>
    let ft := h * 394 / 100 / 12
    let inches := (h * 394 / 100) % 12
    Except.ok (toString ft ++ " ft. " ++ toString inches ++ " in.\n(" ++
      toString (h / 10) ++ "." ++ toString (h % 10) ++ " m.)")

/-- Name override in pdex (lines 183-188): the first English names entry
replaces the fallback; the IndexError raised when no English entry exists
is suppressed, so the fallback display name is kept. -/
def pdexDisplayName (fallback : String) (names : List NameEntry) : String :=
  match englishFirst names with
  | some e => e.name
  | none => fallback

/-- Style selectors of trainercard (lines 54-60). -/
def styles : List (String × Nat) :=
  [("default", 3), ("black", 50), ("collector", 96), ("dp", 5), ("purple", 43)]

/-- Trainer selectors of trainercard (lines 61-70). -/
def trainers : List (String × Nat) :=
  [("ash", 13), ("red", 922), ("ethan", 900), ("lyra", 901), ("brendan", 241),
   ("may", 255), ("lucas", 747), ("dawn", 856)]

/-- Badge league selectors of trainercard (lines 71-78). -/
def badges : List (String × List Nat) :=
  [("kanto", [2, 3, 4, 5, 6, 7, 8, 9]), ("johto", [10, 11, 12, 13, 14, 15, 16, 17]),
   ("hoenn", [18, 19, 20, 21, 22, 23, 24, 25]), ("sinnoh", [26, 27, 28, 29, 30, 31, 32, 33]),
   ("unova", [34, 35, 36, 37, 38, 39, 40, 41]), ("kalos", [44, 45, 46, 47, 48, 49, 50, 51])]

/-- Validation and form assembly of trainercard (lines 517-566). Returns
none when a selector is rejected (the command answers with its help text);
otherwise the multipart form fields as name-value pairs in source order.
The per-pokemon panel lookups are summarised by the panelIds argument. -/
def trainercardForm (name style trainer badge : String) (pokemons panelIds : List String) :
    Option (List (String × String)) :=
  if !((styles.map Prod.fst).contains (pyLower style)) then none
  else if !((trainers.map Prod.fst).contains (pyLower trainer)) then none
  else if !((badges.map Prod.fst).contains (pyLower badge)) then none
  else if pokemons.length > 6 then none
  else some
    [("trainername", name.take 12),
     ("background", toString ((styles.lookup (pyLower style)).getD 0)),
     ("character", toString ((trainers.lookup (pyLower trainer)).getD 0)),
     ("badges", "8"),
     ("badgesUsed", String.intercalate "," (((badges.lookup (pyLower badge)).getD []).map toString)),
     ("pokemon", toString pokemons.length),
     ("pokemonUsed", String.intercalate "," panelIds),
     ("_xfResponseType", "json")]

/-- Fixed 10 by 10 opaque grey template used for concrete evaluations. -/
def tmpl10 : Img := ⟨10, 10, fun _ _ => ⟨100, 100, 100, 255⟩⟩

/-- Fixed 200 by 200 opaque grey template used for concrete evaluations. -/
def tmpl200 : Img := ⟨200, 200, fun _ _ => ⟨100, 100, 100, 255⟩⟩

/-- One fully transparent non-black pixel. -/
def ghost1 : Img := ⟨1, 1, fun _ _ => ⟨9, 9, 9, 0⟩⟩

/-- A 2 by 2 sprite of fully transparent non-black pixels. -/
def ghost2 : Img := ⟨2, 2, fun _ _ => ⟨9, 9, 9, 0⟩⟩

/-- A 2 by 2 sprite of fully transparent black pixels. -/
def zero2 : Img := ⟨2, 2, fun _ _ => ⟨0, 0, 0, 0⟩⟩

/-- A 50 by 50 opaque red sprite. -/
def redSprite50 : Img := ⟨50, 50, fun _ _ => ⟨255, 0, 0, 255⟩⟩

/-- Environment in which every artwork fetch fails (non-200 or timeout). -/
def envFetchFail : WtpEnv :=
  { rand := fun lo _ => lo, template := tmpl10, resample := nearestResample,
    artwork := fun _ => none, species := none, answer := none, author := "tester" }

/-- Names array fixture with an English and a Japanese entry. -/
def namesPika : List NameEntry := [⟨"Pikachu", "en"⟩, ⟨"ピカチュウ", "ja"⟩]

/-- Environment for a full round in which the requester answers PIKACHU. -/
def envVerify : WtpEnv :=
  { rand := fun lo _ => lo, template := tmpl10, resample := nearestResample,
    artwork := fun _ => some ghost2, species := some (some namesPika),
    answer := some "PIKACHU", author := "tester" }

/-- Environment for a full round in which the wait times out. -/
def envTimeout : WtpEnv := { envVerify with answer := none }

/-- The sprite that composeImage actually pastes: the resized sprite,
masked when hide is set. -/
def spriteOf (resample : Img → Nat → Nat → Img) (poke : Img) (hide : Bool) : Img :=
  let resized := resample poke (scaled16 poke.w) (scaled16 poke.h)
  if hide then applyMask resized else resized

theorem blendPixel_zero (b s : Pixel) : blendPixel b s 0 = b := by
  cases b
  simp [blendPixel, blendChan]

theorem paste_pix_of_mask_alpha_zero (base sprite mask : Img) (ox oy : Int) (x y : Nat)
    (h : (mask.pix ((x : Int) - ox).toNat ((y : Int) - oy).toNat).a = 0) :
    (paste base sprite ox oy mask).pix x y = base.pix x y := by
  unfold paste
  dsimp only
  split
  · rw [h, blendPixel_zero]
  · rfl

/-- C1: when the artwork fetch fails, get_pokemon_image returns None and
generate_image, whose None guard is commented out, passes it to
Image.open: the command ends in an escaped exception rather than in a
handled DataUnavailable report. The answer wait indeed never starts, but
the failure is an unhandled crash of the command, contradicting the
claimed error handling. -/
theorem wtp_artwork_fetch_failure_crashes (env : WtpEnv) (gen : Option String)
    (hgen : invalidGenArg gen = false)
    (hart : ∀ u, env.artwork u = none) :
    (wtpRun env gen).2 = WtpOutcome.crashed PyErr.imageOpenNone ∧
    Effect.startWait ∉ (wtpRun env gen).1 ∧
    generate_image env.resample env.template none true = Except.error PyErr.imageOpenNone := by
  simp [wtpRun, hgen, hart, generate_image]

/-- C1 witness: the crash evaluated in a concrete environment whose
artwork fetches all fail. -/
theorem wtp_artwork_fetch_failure_crashes_witness :
    (wtpRun envFetchFail none).2 = WtpOutcome.crashed PyErr.imageOpenNone ∧
    Effect.startWait ∉ (wtpRun envFetchFail none).1 ∧
    generate_image envFetchFail.resample envFetchFail.template none true =
      Except.error PyErr.imageOpenNone :=
  wtp_artwork_fetch_failure_crashes envFetchFail none rfl (fun _ => rfl)

/-- C2 counterexample: the pixel (9, 9, 9, 0) is fully transparent
(alpha 0) yet different from (0, 0, 0, 0), so the hide loop overwrites it
with the opaque silhouette colour: a fully transparent pixel is NOT left
untouched and the alpha shape of the silhouette differs from that of the
sprite. -/
theorem mask_transparent_pixel_overwritten :
    (ghost1.pix 0 0).a = 0 ∧
    (applyMask ghost1).pix 0 0 ≠ ghost1.pix 0 0 ∧
    (applyMask ghost1).pix 0 0 = silhouetteColor := by decide

/-- C2 amended: the hide loop keeps a pixel exactly when it equals the
fully transparent black tuple (0, 0, 0, 0) and overwrites every other
pixel, fully transparent or not, with the fixed opaque near-black
(1, 1, 1, 255), which is distinct from pure black. -/
theorem mask_pixel_rule (img : Img) (x y : Nat) :
    (applyMask img).pix x y =
      (if img.pix x y = transparentBlack then img.pix x y else silhouetteColor) ∧
    silhouetteColor.a = 255 ∧ silhouetteColor ≠ ⟨0, 0, 0, 255⟩ ∧
    transparentBlack.a = 0 :=
  ⟨rfl, rfl, by decide, rfl⟩

/-- C3: with the round set up (artwork fetched, species names fetched, an
English entry present) and an answer collected, the outcome is correct
exactly when the lower-cased guess is a member of the lower-cased list of
ALL localized names; the outcome is always correct or incorrect; and
exactly one outcome embed is sent whose description is the verdict line
built around the canonical English name. -/
theorem wtp_verifier_correct_iff_member (env : WtpEnv) (gen : Option String)
    (poke : Img) (names : List NameEntry) (entry : NameEntry) (guess : String)
    (hgen : invalidGenArg gen = false)
    (hart : ∀ u, env.artwork u = some poke)
    (hsp : env.species = some (some names))
    (hen : englishFirst names = some entry)
    (hans : env.answer = some guess) :
    ((wtpRun env gen).2 = WtpOutcome.correct ↔
      pyLower guess ∈ names.map (fun x => pyLower x.name)) ∧
    ((wtpRun env gen).2 = WtpOutcome.correct ∨ (wtpRun env gen).2 = WtpOutcome.incorrect) ∧
    (wtpRun env gen).1.countP (isVerdictEmbed entry.name) = 1 := by
  by_cases hc : pyLower guess ∈ names.map (fun x => pyLower x.name) <;>
    simp [wtpRun, hgen, hart, hsp, hen, hans, generate_image, List.countP_append,
      List.countP_cons, isVerdictEmbed, hc]

/-- C3 witness: a round with names Pikachu (en) and the Japanese spelling,
and the guess PIKACHU, evaluated concretely. -/
theorem wtp_verifier_correct_iff_member_witness :
    ((wtpRun envVerify none).2 = WtpOutcome.correct ↔
      pyLower "PIKACHU" ∈ namesPika.map (fun x => pyLower x.name)) ∧
    ((wtpRun envVerify none).2 = WtpOutcome.correct ∨
      (wtpRun envVerify none).2 = WtpOutcome.incorrect) ∧
    (wtpRun envVerify none).1.countP (isVerdictEmbed "Pikachu") = 1 :=
  wtp_verifier_correct_iff_member envVerify none ghost2 namesPika ⟨"Pikachu", "en"⟩
    "PIKACHU" rfl (fun _ => rfl) rfl (by decide) rfl

/-- C4: when the wait times out the round outcome is exactly timeout, the
prompt is deleted, the timeout text is sent, no verdict embed is sent
(the verifier is never reached) and only the two initial fetches happen:
no reveal image is generated. -/
theorem wtp_timeout_round (env : WtpEnv) (gen : Option String) (poke : Img)
    (names : List NameEntry) (entry : NameEntry)
    (hgen : invalidGenArg gen = false)
    (hart : ∀ u, env.artwork u = some poke)
    (hsp : env.species = some (some names))
    (hen : englishFirst names = some entry)
    (hans : env.answer = none) :
    (wtpRun env gen).2 = WtpOutcome.timeout ∧
    Effect.deletePrompt ∈ (wtpRun env gen).1 ∧
    Effect.sendText (timeoutMsg env.author) ∈ (wtpRun env gen).1 ∧
    (wtpRun env gen).1.countP isHttpGet = 2 ∧
    (wtpRun env gen).1.countP (isVerdictEmbed entry.name) = 0 := by
  simp [wtpRun, hgen, hart, hsp, hen, hans, generate_image, List.countP_append,
    List.countP_cons, isHttpGet, isVerdictEmbed]

/-- C4 witness: a concrete round whose wait times out. -/
theorem wtp_timeout_round_witness :
    (wtpRun envTimeout none).2 = WtpOutcome.timeout ∧
    Effect.deletePrompt ∈ (wtpRun envTimeout none).1 ∧
    Effect.sendText (timeoutMsg "tester") ∈ (wtpRun envTimeout none).1 ∧
    (wtpRun envTimeout none).1.countP isHttpGet = 2 ∧
    (wtpRun envTimeout none).1.countP (isVerdictEmbed "Pikachu") = 0 :=
  wtp_timeout_round envTimeout none ghost2 namesPika ⟨"Pikachu", "en"⟩
    rfl (fun _ => rfl) rfl (by decide) rfl

/-- C5: under the randint contract (inclusive bounds), the identifier
selected by whosthatpokemon lies in [252, 386] for gen3, in [810, 898]
for gen8, in [1, 898] when no generation is given, and in the respective
fixed sub-range for every other label. -/
theorem wtp_generation_ranges (rand : Nat → Nat → Nat)
    (hr : ∀ lo hi, lo ≤ hi → lo ≤ rand lo hi ∧ rand lo hi ≤ hi) :
    (252 ≤ pickPokeId rand (some "gen3") ∧ pickPokeId rand (some "gen3") ≤ 386) ∧
    (810 ≤ pickPokeId rand (some "gen8") ∧ pickPokeId rand (some "gen8") ≤ 898) ∧
    (1 ≤ pickPokeId rand none ∧ pickPokeId rand none ≤ 898) ∧
    (1 ≤ pickPokeId rand (some "gen1") ∧ pickPokeId rand (some "gen1") ≤ 151) ∧
    (152 ≤ pickPokeId rand (some "gen2") ∧ pickPokeId rand (some "gen2") ≤ 251) ∧
    (387 ≤ pickPokeId rand (some "gen4") ∧ pickPokeId rand (some "gen4") ≤ 493) ∧
    (494 ≤ pickPokeId rand (some "gen5") ∧ pickPokeId rand (some "gen5") ≤ 649) ∧
    (650 ≤ pickPokeId rand (some "gen6") ∧ pickPokeId rand (some "gen6") ≤ 721) ∧
    (722 ≤ pickPokeId rand (some "gen7") ∧ pickPokeId rand (some "gen7") ≤ 809) :=
  ⟨hr 252 386 (by decide), hr 810 898 (by decide), hr 1 898 (by decide),
   hr 1 151 (by decide), hr 152 251 (by decide), hr 387 493 (by decide),
   hr 494 649 (by decide), hr 650 721 (by decide), hr 722 809 (by decide)⟩

/-- C5 witness: the ranges evaluated with the generator that always
returns its lower bound. -/
theorem wtp_generation_ranges_witness :
    (252 ≤ pickPokeId (fun lo _ => lo) (some "gen3") ∧
      pickPokeId (fun lo _ => lo) (some "gen3") ≤ 386) ∧
    (810 ≤ pickPokeId (fun lo _ => lo) (some "gen8") ∧
      pickPokeId (fun lo _ => lo) (some "gen8") ≤ 898) ∧
    (1 ≤ pickPokeId (fun lo _ => lo) none ∧ pickPokeId (fun lo _ => lo) none ≤ 898) ∧
    (1 ≤ pickPokeId (fun lo _ => lo) (some "gen1") ∧
      pickPokeId (fun lo _ => lo) (some "gen1") ≤ 151) ∧
    (152 ≤ pickPokeId (fun lo _ => lo) (some "gen2") ∧
      pickPokeId (fun lo _ => lo) (some "gen2") ≤ 251) ∧
    (387 ≤ pickPokeId (fun lo _ => lo) (some "gen4") ∧
      pickPokeId (fun lo _ => lo) (some "gen4") ≤ 493) ∧
    (494 ≤ pickPokeId (fun lo _ => lo) (some "gen5") ∧
      pickPokeId (fun lo _ => lo) (some "gen5") ≤ 649) ∧
    (650 ≤ pickPokeId (fun lo _ => lo) (some "gen6") ∧
      pickPokeId (fun lo _ => lo) (some "gen6") ≤ 721) ∧
    (722 ≤ pickPokeId (fun lo _ => lo) (some "gen7") ∧
      pickPokeId (fun lo _ => lo) (some "gen7") ≤ 809) :=
  wtp_generation_ranges (fun lo _ => lo) (fun lo _ h => ⟨Nat.le_refl lo, h⟩)

/-- C6 counterexample: the empty string is a generation argument that is
not one of gen1..gen8, yet the command does not reject it: the falsy test
at line 843 treats it like a missing argument, so the cooldown is not
reset, a network fetch is performed and the outcome is not the invalid
argument help message. -/
theorem wtp_empty_generation_accepted :
    ("" ∉ allowed_gens) ∧
    (wtpRun envFetchFail (some "")).2 ≠ WtpOutcome.invalidGen ∧
    (wtpRun envFetchFail (some "")).1.countP isHttpGet ≠ 0 ∧
    Effect.resetCooldown ∉ (wtpRun envFetchFail (some "")).1 := by decide

/-- C6 amended: every NON-EMPTY generation argument outside gen1..gen8 is
rejected with the help message, the cooldown reset, no network fetch and
no further effect; the empty string is falsy in Python and is treated as
if no argument was given. -/
theorem wtp_invalid_generation_rejected (env : WtpEnv) (g : String)
    (hne : g ≠ "") (hg : g ∉ allowed_gens) :
    wtpRun env (some g) =
      ([Effect.resetCooldown, Effect.sendText invalidGenMsg], WtpOutcome.invalidGen) ∧
    (wtpRun env (some g)).1.countP isHttpGet = 0 ∧
    Effect.resetCooldown ∈ (wtpRun env (some g)).1 := by
  have hb : invalidGenArg (some g) = true := by
    simp [invalidGenArg, bne, hne, List.contains, hg]
  simp [wtpRun, hb, isHttpGet, List.countP_cons]

/-- C6 witness: the rejection evaluated at the unrecognized label gen9. -/
theorem wtp_invalid_generation_rejected_witness :
    wtpRun envFetchFail (some "gen9") =
      ([Effect.resetCooldown, Effect.sendText invalidGenMsg], WtpOutcome.invalidGen) ∧
    (wtpRun envFetchFail (some "gen9")).1.countP isHttpGet = 0 ∧
    Effect.resetCooldown ∈ (wtpRun envFetchFail (some "gen9")).1 :=
  wtp_invalid_generation_rejected envFetchFail "gen9" (by decide) (by decide)

/-- C7 counterexample: with a 200 by 200 template and a 50 by 50 sprite
the pasted sprite is 80 by 80, so the offset of the claim would be
(200 - 80) / 10 = 12; generate_image instead computes (200 - 50) / 10 = 15
from the original size, and the composite differs at pixel (12, 30) from
the composite the claim describes. -/
theorem compose_paste_offset_mismatch :
    pasteOx 200 50 = 15 ∧ pasteOx 200 80 = 12 ∧ (15 : Int) ≠ 12 ∧
    (composeImage nearestResample tmpl200 redSprite50 false).pix 12 30 ≠
      (paste tmpl200 (nearestResample redSprite50 80 80) 12 30
        (nearestResample redSprite50 80 80)).pix 12 30 := by decide

/-- C7 amended: generate_image scales both axes by the fixed factor 1.6
(truncated to integers) and pastes the scaled, possibly masked sprite
using that sprite itself (hence its alpha channel) as the paste mask, but
at offsets (templateW - origW) / 10 and (templateH - origH) / 4 computed
from the ORIGINAL sprite dimensions, not from those of the pasted
sprite. -/
theorem compose_scale_and_offsets (resample : Img → Nat → Nat → Img)
    (hres : resampleDims resample) (template poke : Img) (hide : Bool) :
    composeImage resample template poke hide =
      paste template (spriteOf resample poke hide)
        (pasteOx template.w poke.w) (pasteOy template.h poke.h)
        (spriteOf resample poke hide) ∧
    (spriteOf resample poke hide).w = scaled16 poke.w ∧
    (spriteOf resample poke hide).h = scaled16 poke.h := by
  refine ⟨rfl, ?_, ?_⟩ <;> cases hide <;>
    simp [spriteOf, applyMask, (hres poke (scaled16 poke.w) (scaled16 poke.h)).1,
      (hres poke (scaled16 poke.w) (scaled16 poke.h)).2]

/-- C7 witness: the amended geometry evaluated for the nearest-neighbour
resampler on concrete images. -/
theorem compose_scale_and_offsets_witness :
    composeImage nearestResample tmpl200 redSprite50 true =
      paste tmpl200 (spriteOf nearestResample redSprite50 true)
        (pasteOx tmpl200.w redSprite50.w) (pasteOy tmpl200.h redSprite50.h)
        (spriteOf nearestResample redSprite50 true) ∧
    (spriteOf nearestResample redSprite50 true).w = scaled16 redSprite50.w ∧
    (spriteOf nearestResample redSprite50 true).h = scaled16 redSprite50.h :=
  compose_scale_and_offsets nearestResample (fun _ _ _ => ⟨rfl, rfl⟩) tmpl200 redSprite50 true

/-- C8 counterexample: a 2 by 2 sprite of fully transparent non-black
pixels is scaled to 3 by 3 and masked; masking makes those pixels opaque,
so the masked composite differs from the template at (0, 2), inside the
pasted rectangle, although the scaled sprite is fully transparent at the
corresponding position. -/
theorem compose_transparent_overwrites_template :
    ((nearestResample ghost2 (scaled16 ghost2.w) (scaled16 ghost2.h)).pix 0 0).a = 0 ∧
    (composeImage nearestResample tmpl10 ghost2 true).w = tmpl10.w ∧
    (composeImage nearestResample tmpl10 ghost2 true).pix 0 2 ≠ tmpl10.pix 0 2 := by decide

/-- C8 amended: the composite keeps exactly the template dimensions, and
every pixel position whose sample in the scaled sprite equals the fully
transparent BLACK tuple (0, 0, 0, 0) leaves the template pixel unchanged
(for fully transparent non-black pixels this fails under masking, see the
counterexample). -/
theorem compose_dims_and_transparent_black (resample : Img → Nat → Nat → Img)
    (template poke : Img) (hide : Bool) (x y : Nat)
    (hpix : (resample poke (scaled16 poke.w) (scaled16 poke.h)).pix
        ((x : Int) - pasteOx template.w poke.w).toNat
        ((y : Int) - pasteOy template.h poke.h).toNat = transparentBlack) :
    (composeImage resample template poke hide).w = template.w ∧
    (composeImage resample template poke hide).h = template.h ∧
    (composeImage resample template poke hide).pix x y = template.pix x y := by
  refine ⟨rfl, rfl, ?_⟩
  unfold composeImage
  cases hide <;> refine paste_pix_of_mask_alpha_zero _ _ _ _ _ _ _ ?_ <;>
    simp [applyMask, maskPixel, hpix, transparentBlack]

/-- C8 witness: the template pixel at (0, 2) survives a masked composite
of an all-(0,0,0,0) sprite. -/
theorem compose_dims_and_transparent_black_witness :
    (composeImage nearestResample tmpl10 zero2 true).w = tmpl10.w ∧
    (composeImage nearestResample tmpl10 zero2 true).h = tmpl10.h ∧
    (composeImage nearestResample tmpl10 zero2 true).pix 0 2 = tmpl10.pix 0 2 :=
  compose_dims_and_transparent_black nearestResample tmpl10 zero2 true 0 2 (by decide)

/-- C9: pdex does NOT tolerate an absent height field: the metres part of
the height text divides the raw get result (None when absent) by 10,
raising a TypeError instead of degrading, while the absent English name
entry in the same command IS tolerated through the suppressed IndexError;
with the field present the text is produced normally. -/
theorem pdex_missing_height_type_error :
    pdexHeightText none =
      Except.error (PyErr.typeError "unsupported operand types for /: NoneType and int") ∧
    pdexHeightText (some 7) = Except.ok "2 ft. 3 in.\n(0.7 m.)" ∧
    pdexDisplayName "Fallback" [⟨"フシギダネ", "ja"⟩] = "Fallback" :=
  ⟨rfl, rfl, by decide⟩

/-- C10: every form that trainercard submits carries as trainername
exactly the first 12 characters of the given name: a name of at most 12
characters is passed unchanged and a longer name is truncated to length
12. -/
theorem trainercard_name_first_twelve (name style trainer badge : String)
    (pokemons panelIds : List String) (form : List (String × String))
    (hform : trainercardForm name style trainer badge pokemons panelIds = some form) :
    form.lookup "trainername" = some (name.take 12) ∧
    (name.data.length ≤ 12 → name.take 12 = name) ∧
    (name.take 12).data.length = min 12 name.data.length := by
  refine ⟨?_, ?_, ?_⟩
  · unfold trainercardForm at hform
    repeat' split at hform
    all_goals first
      | exact Option.noConfusion hform
      | (injection hform with hf
         subst hf
         rfl)
  · intro h
    apply String.ext
    rw [String.data_take]
    exact List.take_of_length_le h
  · rw [String.data_take, List.length_take]

/-- C10 witness: a 16-character name is truncated to its first 12
characters and a 5-character name is passed unchanged. -/
theorem trainercard_name_first_twelve_witness :
    List.lookup "trainername"
      [("trainername", "ALongTrainer"), ("background", "3"), ("character", "13"),
       ("badges", "8"), ("badgesUsed", "2,3,4,5,6,7,8,9"), ("pokemon", "0"),
       ("pokemonUsed", ""), ("_xfResponseType", "json")] =
      some ("ALongTrainerName".take 12) ∧
    ("ALongTrainerName".take 12).data.length = min 12 "ALongTrainerName".data.length ∧
    "Short".take 12 = "Short" :=
  ⟨(trainercard_name_first_twelve "ALongTrainerName" "default" "ash" "kanto" [] []
      [("trainername", "ALongTrainer"), ("background", "3"), ("character", "13"),
       ("badges", "8"), ("badgesUsed", "2,3,4,5,6,7,8,9"), ("pokemon", "0"),
       ("pokemonUsed", ""), ("_xfResponseType", "json")] (by decide)).1,
   (trainercard_name_first_twelve "ALongTrainerName" "default" "ash" "kanto" [] []
      [("trainername", "ALongTrainer"), ("background", "3"), ("character", "13"),
       ("badges", "8"), ("badgesUsed", "2,3,4,5,6,7,8,9"), ("pokemon", "0"),
       ("pokemonUsed", ""), ("_xfResponseType", "json")] (by decide)).2.2,
   (trainercard_name_first_twelve "Short" "default" "ash" "kanto" [] []
      [("trainername", "Short"), ("background", "3"), ("character", "13"),
       ("badges", "8"), ("badgesUsed", "2,3,4,5,6,7,8,9"), ("pokemon", "0"),
       ("pokemonUsed", ""), ("_xfResponseType", "json")] (by decide)).2.1 (by decide)⟩
